import Mathlib

/-!
Shallow embedding of the protected media player (src/src/App.tsx and the
unnamed share-player variant src/unnamed/part_000).

Pure helper functions are translated directly.  The React component state is
modelled as explicit records, with the event handlers as state-transition
functions.  Browser primitives are modelled as follows:
  * `URL.createObjectURL` allocates a fresh natural-number handle
    (`nextHandle`), `URL.revokeObjectURL` appends the handle to a
    revocation log (`revokedHandles`);
  * `fetch` is an oracle boolean parameter (transport success / failure);
  * `btoa` / `atob` are the base64 codec implemented below, on the character
    codes of the string (`btoa` throws when a code is above 255, modelled by
    `Option`);
  * `window.location`, `document.referrer`, random token generation and the
    wall clock are explicit parameters.
Times and volumes are modelled as exact rationals.
-/

namespace Player

/-! ### String helpers (JS `includes`, `startsWith`, the `$`-anchored regex,
and ASCII `toLowerCase`) -/

/-- `listIsPrefix l pat` : does `l` start with `pat`? -/
def listIsPrefix : List Char → List Char → Bool
  | _, [] => true
  | [], _ :: _ => false
  | a :: as, b :: bs => a == b && listIsPrefix as bs

/-- `hasSubList l pat` : does `pat` occur as a contiguous sublist of `l`?
Models JS `String.prototype.includes`. -/
def hasSubList : List Char → List Char → Bool
  | [], pat => pat.isEmpty
  | a :: t, pat => listIsPrefix (a :: t) pat || hasSubList t pat

/-- JS `url.includes(pat)`. -/
def strHasSubstr (s pat : String) : Bool :=
  hasSubList s.data pat.data

/-- JS `url.startsWith(pat)`. -/
def strStartsWith (s pat : String) : Bool :=
  listIsPrefix s.data pat.data

/-- JS `url.endsWith(pat)` (used to model the `$`-anchored extension regex). -/
def strEndsWith (s pat : String) : Bool :=
  listIsPrefix s.data.reverse pat.data.reverse

/-- ASCII lowering; models `String.prototype.toLowerCase` on the ASCII range
(the only range the extension checks exercise). -/
def toLowerStr (s : String) : String :=
  String.mk (s.data.map Char.toLower)

/-- JS `String.prototype.trim`, implemented structurally so that the kernel
can evaluate it on concrete inputs. -/
def trimStr (s : String) : String :=
  String.mk (((s.data.dropWhile Char.isWhitespace).reverse.dropWhile
    Char.isWhitespace).reverse)

/-! ### Base64 codec (`btoa` / `atob`) -/

def b64Alphabet : List Char :=
  ['A','B','C','D','E','F','G','H','I','J','K','L','M',
   'N','O','P','Q','R','S','T','U','V','W','X','Y','Z',
   'a','b','c','d','e','f','g','h','i','j','k','l','m',
   'n','o','p','q','r','s','t','u','v','w','x','y','z',
   '0','1','2','3','4','5','6','7','8','9','+','/']

def b64CharOf (n : Nat) : Char := b64Alphabet.getD n '?'

def b64Val (c : Char) : Nat := b64Alphabet.indexOf c

def b64Valid (c : Char) : Bool := b64Alphabet.indexOf c < 64

/-- Base64-encode a byte list (the body of `btoa`): 3 bytes become 4 alphabet
characters; a final partial group is padded with `=`. -/
def encB64 : List Nat → List Char
  | [] => []
  | [b0] =>
      [b64CharOf (b0 / 4), b64CharOf (b0 % 4 * 16), '=', '=']
  | [b0, b1] =>
      [b64CharOf (b0 / 4), b64CharOf (b0 % 4 * 16 + b1 / 16),
       b64CharOf (b1 % 16 * 4), '=']
  | b0 :: b1 :: b2 :: rest =>
      b64CharOf (b0 / 4) :: b64CharOf (b0 % 4 * 16 + b1 / 16) ::
      b64CharOf (b1 % 16 * 4 + b2 / 64) :: b64CharOf (b2 % 64) :: encB64 rest

/-- Decode the final 4-character group of a base64 string, handling the `=`
padding forms.  As in the forgiving decode used by `atob`, the discarded
padding bits are not required to be zero. -/
def decFinal (a b c d : Char) : Option (List Nat) :=
  if d = '=' then
    if c = '=' then
      if b64Valid a && b64Valid b then
        some [b64Val a * 4 + b64Val b / 16]
      else none
    else
      if b64Valid a && b64Valid b && b64Valid c then
        some [b64Val a * 4 + b64Val b / 16, b64Val b % 16 * 16 + b64Val c / 4]
      else none
  else
    if b64Valid a && b64Valid b && b64Valid c && b64Valid d then
      some [b64Val a * 4 + b64Val b / 16,
            b64Val b % 16 * 16 + b64Val c / 4,
            b64Val c % 4 * 64 + b64Val d]
    else none

/-- Base64-decode (the body of `atob`): the input must consist of 4-character
groups, `=` padding allowed only in the final group.  (The whitespace
stripping and the unpadded short forms of forgiving-base64 are not modelled;
no code path of the program produces them.) -/
def decB64 : List Char → Option (List Nat)
  | [] => some []
  | a :: b :: c :: d :: rest =>
      if rest.isEmpty then decFinal a b c d
      else
        if b64Valid a && b64Valid b && b64Valid c && b64Valid d then
          (decB64 rest).map (fun t =>
            (b64Val a * 4 + b64Val b / 16) ::
            (b64Val b % 16 * 16 + b64Val c / 4) ::
            (b64Val c % 4 * 64 + b64Val d) :: t)
        else none
  | _ => none

/-- `encodeUrl` (App.tsx 62-64): `btoa(url)`.  `btoa` throws when some
character code of its input is above 255, hence the `Option`. -/
def encodeUrl (s : String) : Option String :=
  if s.data.all (fun c => decide (c.toNat < 256)) then
    some (String.mk (encB64 (s.data.map Char.toNat)))
  else none

/-- `decodeUrl` (App.tsx 66-72): `atob(encodedUrl)`, failure rethrown
(`Option.none` models the `throw new Error('URL inválida')`). -/
def decodeUrl (t : String) : Option String :=
  (decB64 t.data).map (fun bs => String.mk (bs.map Char.ofNat))

/-! ### Locator validation and the token-vs-URL dispatch -/

def directLinkExts : List String :=
  [".mp3", ".mp4", ".wav", ".ogg", ".webm", ".flac", ".m4a", ".avi", ".mov"]

/-- `isValidDirectLink` (App.tsx 106-108): the regex
`/\.(mp3|mp4|wav|ogg|webm|flac|m4a|avi|mov)$/i` — the URL must end,
case-insensitively, in a dot plus one of the nine extensions. -/
def isValidDirectLink (url : String) : Bool :=
  directLinkExts.any fun ext => strEndsWith (toLowerStr url) ext

def mediaUrlExts : List String :=
  [".mp4", ".mp3", ".webm", ".avi", ".mov", ".mkv", ".flv", ".wmv", ".m4v"]

/-- `isValidMediaUrl` (part_000 75-79): some extension occurs anywhere in the
lowercased URL, and the URL mentions a known hosting service or starts with
`http`. -/
def isValidMediaUrl (url : String) : Bool :=
  (mediaUrlExts.any fun ext => strHasSubstr (toLowerStr url) ext) &&
    (strHasSubstr url "mediafire.com" || strHasSubstr url "drive.google.com" ||
      strStartsWith url "http")

/-- `extractFileName` (App.tsx 110-114).  `decodeURIComponent` is modelled as
the identity (it agrees with the browser function on names without
percent-escapes; no claim depends on percent-decoding). -/
def extractFileName (url : String) : String :=
  (((url.splitOn "/").getLastD "").splitOn "?").headD ""

/-- `extractFileName` of the part_000 variant (lines 81-86): falls back to a
placeholder when the name is empty. -/
def extractFileNameShare (url : String) : String :=
  let fileName := extractFileName url
  if fileName = "" then "Mídia sem nome" else fileName

/-- The token-vs-URL dispatch inside `handleLoadMedia` (App.tsx 157-163):
`decodedUrl = url.includes('http') ? url : decodeUrl(url)`, with a decode
failure caught and falling back to the raw input. -/
def dispatchDecode (url : String) : String :=
  if strHasSubstr url "http" then url
  else
    match decodeUrl url with
    | some d => d
    | none => url

/-! ### Playback state and the playback-control handlers (identical in both
variants; modelled from App.tsx 197-267) -/

/-- `PlayerState` (App.tsx 17-29). -/
structure PlayerState where
  url : String
  fileName : String
  isPlaying : Bool
  currentTime : ℚ
  duration : ℚ
  volume : ℚ
  isMuted : Bool
  isFullscreen : Bool
  showControls : Bool
  isProtected : Bool
  blobUrl : Option Nat
  deriving DecidableEq

/-- The pieces of the `<video>` element the handlers read and write. -/
structure VideoEl where
  src : Option Nat
  volume : ℚ
  currentTime : ℚ
  paused : Bool
  deriving DecidableEq

/-- The state surrounding the playback handlers: the video ref (`none` when no
element is mounted), the player state, and the error-message state.  None of
the handlers ever writes `error`. -/
structure PlaybackCtx where
  video : Option VideoEl
  player : Option PlayerState
  error : String
  deriving DecidableEq

/-- `togglePlayPause` (App.tsx 197-212).  The trailing `showControls()` call is
modelled by setting `showControls := true` (its auto-hide timer fires outside
this model). -/
def togglePlayPause (c : PlaybackCtx) : PlaybackCtx :=
  match c.video, c.player with
  | some v, some p =>
      let v' :=
        if p.isPlaying then { v with paused := true }
        else
          let v1 :=
            if v.src = none ∧ p.blobUrl ≠ none then { v with src := p.blobUrl }
            else v
          { v1 with paused := false }
      { c with
        video := some v',
        player := some { p with isPlaying := !p.isPlaying, showControls := true } }
  | _, _ => c

/-- `toggleMute` (App.tsx 214-225). -/
def toggleMute (c : PlaybackCtx) : PlaybackCtx :=
  match c.video, c.player with
  | some v, some p =>
      if p.isMuted then
        { c with
          video := some { v with volume := p.volume },
          player := some { p with isMuted := false, showControls := true } }
      else
        { c with
          video := some { v with volume := 0 },
          player := some { p with isMuted := true, showControls := true } }
  | _, _ => c

/-- `handleVolumeChange` (App.tsx 227-238); `newVolume` is
`parseFloat(e.target.value)`.  The element-side behaviour of an out-of-range
assignment belongs to the excluded rendering surface; the element is modelled
as a plain store. -/
def handleVolumeChange (newVolume : ℚ) (c : PlaybackCtx) : PlaybackCtx :=
  match c.video, c.player with
  | some v, some p =>
      { c with
        video := some { v with volume := newVolume },
        player := some { p with
          volume := newVolume,
          isMuted := if newVolume = 0 then true else false,
          showControls := true } }
  | _, _ => c

/-- `handleSeek` (App.tsx 240-250): the new time is
`(e.clientX - rect.left) / rect.width * player.duration`, assigned without any
clamping (the element is modelled as a plain store; element-side clamping
belongs to the excluded rendering surface). -/
def handleSeek (clientX rectLeft rectWidth : ℚ) (c : PlaybackCtx) : PlaybackCtx :=
  match c.video, c.player with
  | some v, some p =>
      let newTime := (clientX - rectLeft) / rectWidth * p.duration
      { c with
        video := some { v with currentTime := newTime },
        player := some { p with currentTime := newTime, showControls := true } }
  | _, _ => c

/-- `toggleFullscreen` (App.tsx 252-267): guards only on the player-container
ref, not on the session; the fullscreen request itself is host behaviour and
is assumed to succeed. -/
def toggleFullscreen (playerRefMounted fullscreenActive : Bool) (c : PlaybackCtx) :
    PlaybackCtx :=
  if !playerRefMounted then c
  else
    let c1 :=
      if !fullscreenActive then
        { c with player := c.player.map fun (p : PlayerState) => { p with isFullscreen := true } }
      else
        { c with player := c.player.map fun (p : PlayerState) => { p with isFullscreen := false } }
    { c1 with player := c1.player.map fun (p : PlayerState) => { p with showControls := true } }

/-! ### App.tsx component state and the load path -/

/-- `SecurityConfig` (App.tsx 31-39). -/
structure SecurityConfig where
  allowedDomains : List String
  allowedReferrers : List String
  enableDomainCheck : Bool
  enableReferrerCheck : Bool
  enableRightClickProtection : Bool
  enableDevToolsProtection : Bool
  enableCopyProtection : Bool
  deriving DecidableEq

/-- The initial security configuration (App.tsx 47-55). -/
def defaultSecurityConfig : SecurityConfig where
  allowedDomains := ["localhost", "127.0.0.1"]
  allowedReferrers := []
  enableDomainCheck := false
  enableReferrerCheck := false
  enableRightClickProtection := true
  enableDevToolsProtection := true
  enableCopyProtection := true

/-- The browser context read by the security checks:
`window.location.hostname` and `document.referrer`. -/
structure LoadEnv where
  currentDomain : String
  referrer : String
  deriving DecidableEq

/-- `checkDomainSecurity` (App.tsx 74-79). -/
def checkDomainSecurity (cfg : SecurityConfig) (currentDomain : String) : Bool :=
  if !cfg.enableDomainCheck then true
  else cfg.allowedDomains.contains currentDomain

/-- `checkReferrerSecurity` (App.tsx 81-90). -/
def checkReferrerSecurity (cfg : SecurityConfig) (referrer : String) : Bool :=
  if !cfg.enableReferrerCheck then true
  else if referrer = "" ∧ cfg.allowedReferrers.length > 0 then false
  else cfg.allowedReferrers.any fun allowed => strStartsWith referrer allowed

/-- The component state of the App.tsx variant, plus the blob-URL bookkeeping:
`nextHandle` is the id the next `URL.createObjectURL` call returns,
`revokedHandles` logs every `URL.revokeObjectURL` call. -/
structure AppState where
  url : String
  player : Option PlayerState
  error : String
  isLoading : Bool
  securityConfig : SecurityConfig
  nextHandle : Nat
  revokedHandles : List Nat
  deriving DecidableEq

def emptyUrlMsg : String := "Por favor, insira um URL"

def domainDeniedMsg : String := "Acesso negado: domínio não autorizado"

def referrerDeniedMsg : String := "Acesso negado: referrer não autorizado"

def invalidLinkMsg : String :=
  "Por favor, insira um link direto válido (terminando com .mp4, .mp3, etc.)"

def blobErrorMsg : String := "Erro ao criar blob protegido"

/-- `handleLoadMedia` up to its only suspension point, the `await` on
`createProtectedBlob` (App.tsx 138-171): clear the error, check emptiness and
the two gates, dispatch-decode the input, pre-check the locator, and set
`isLoading` before fetching.  `.inl` is an early exit (fetch never issued),
`.inr` carries the state at the suspension point and the URL to fetch. -/
def loadPhase1 (env : LoadEnv) (s0 : AppState) : AppState ⊕ (AppState × String) :=
  let s := { s0 with error := "" }
  if trimStr s.url = "" then .inl { s with error := emptyUrlMsg }
  else if !checkDomainSecurity s.securityConfig env.currentDomain then
    .inl { s with error := domainDeniedMsg }
  else if !checkReferrerSecurity s.securityConfig env.referrer then
    .inl { s with error := referrerDeniedMsg }
  else
    let decodedUrl := dispatchDecode s.url
    if !isValidDirectLink decodedUrl then
      .inl { s with error := invalidLinkMsg }
    else
      .inr ({ s with isLoading := true }, decodedUrl)

/-- `handleLoadMedia` after the fetch resumes (App.tsx 172-195): on success a
fresh blob handle is allocated and the player state replaced — the previous
player's blob handle is dropped without revocation; on failure the error is
surfaced.  Either way the `finally` clears `isLoading`. -/
def loadPhase2 (fetchOk : Bool) (decodedUrl : String) (s : AppState) : AppState :=
  if fetchOk then
    { s with
      player := some {
        url := decodedUrl
        fileName := extractFileName decodedUrl
        isPlaying := false
        currentTime := 0
        duration := 0
        volume := 1
        isMuted := false
        isFullscreen := false
        showControls := true
        isProtected := true
        blobUrl := some s.nextHandle }
      nextHandle := s.nextHandle + 1
      isLoading := false }
  else
    { s with error := blobErrorMsg, isLoading := false }

/-- A whole run of `handleLoadMedia`, the fetch outcome given by the oracle
`fetchOk`. -/
def handleLoadMedia (env : LoadEnv) (fetchOk : Bool) (s : AppState) : AppState :=
  match loadPhase1 env s with
  | .inl s1 => s1
  | .inr (s1, decodedUrl) => loadPhase2 fetchOk decodedUrl s1

/-- The `beforeunload` teardown handler (App.tsx 317-321): revoke the current
session's blob URL. -/
def handleBeforeUnload (s : AppState) : AppState :=
  match s.player with
  | some p =>
      match p.blobUrl with
      | some h => { s with revokedHandles := s.revokedHandles ++ [h] }
      | none => s
  | none => s

/-- A sequence of user-driven loads: for each `(fetchOk, u)` the user types `u`
into the input field and invokes `handleLoadMedia`. -/
def runLoads (env : LoadEnv) : List (Bool × String) → AppState → AppState
  | [], s => s
  | (fetchOk, u) :: rest, s =>
      runLoads env rest (handleLoadMedia env fetchOk { s with url := u })

/-- The mount-time state of the App.tsx component, with the input field
holding `u`. -/
def mkInit (u : String) : AppState where
  url := u
  player := none
  error := ""
  isLoading := false
  securityConfig := defaultSecurityConfig
  nextHandle := 0
  revokedHandles := []

def env0 : LoadEnv := { currentDomain := "localhost", referrer := "" }

/-! ### The unnamed share-player variant (part_000) -/

/-- `PlayerState` of part_000 (lines 22-33; no `isProtected` field). -/
structure SharePlayerState where
  url : String
  fileName : String
  isPlaying : Bool
  currentTime : ℚ
  duration : ℚ
  volume : ℚ
  isMuted : Bool
  isFullscreen : Bool
  showControls : Bool
  blobUrl : Option Nat
  deriving DecidableEq

/-- `ShareableLink` (part_000 35-39), kept as its query components: `token`
and `media = btoa(url)` (the `createdAt` wall-clock field is outside the
model; `base` is `window.location.href`). -/
structure ShareableLink where
  token : String
  mediaParam : Option String
  base : String
  deriving DecidableEq

/-- The component state of the part_000 variant, with the same blob-handle
bookkeeping as `AppState`. -/
structure ShareState where
  mediaUrl : String
  player : Option SharePlayerState
  error : String
  success : String
  isLoading : Bool
  shareableLink : Option ShareableLink
  showShareSection : Bool
  nextHandle : Nat
  revokedHandles : List Nat
  deriving DecidableEq

def shareEmptyUrlMsg : String := "Por favor, insira um URL válido"

def shareInvalidUrlMsg : String :=
  "URL inválido. Certifique-se que é um link direto para um arquivo de mídia."

def shareFetchErrorMsg : String :=
  "Erro ao carregar mídia. Verifique se o link está correto e acessível."

def shareSuccessMsg : String := "Player carregado com sucesso!"

def shareBadLinkMsg : String := "Link compartilhado inválido"

/-- `loadMediaFromUrl` (part_000 106-159).  `fetchOk` is the transport oracle,
`freshToken` the value `generateToken()` would mint, `baseHref`
`window.location.href`.  `existingToken` is the optional second argument; the
JS truthiness test `existingToken || generateToken()` makes an empty string
fall back to a fresh token. -/
def loadMediaFromUrl (existingToken : Option String) (fetchOk : Bool)
    (freshToken baseHref : String) (u : String) (s0 : ShareState) : ShareState :=
  let s := { s0 with error := "", success := "" }
  if trimStr u = "" then { s with error := shareEmptyUrlMsg }
  else if !isValidMediaUrl u then { s with error := shareInvalidUrlMsg }
  else if fetchOk then
    let token :=
      match existingToken with
      | some t => if t = "" then freshToken else t
      | none => freshToken
    { s with
      player := some {
        url := u
        fileName := extractFileNameShare u
        isPlaying := false
        currentTime := 0
        duration := 0
        volume := 1
        isMuted := false
        isFullscreen := false
        showControls := true
        blobUrl := some s.nextHandle }
      nextHandle := s.nextHandle + 1
      shareableLink := some { token := token, mediaParam := encodeUrl u, base := baseHref }
      showShareSection := true
      success := shareSuccessMsg
      isLoading := false }
  else { s with error := shareFetchErrorMsg, isLoading := false }

/-- The mount effect of part_000 (lines 55-69): read the `token` and `media`
query parameters and, when both are present (and non-empty — the JS truthiness
guard), decode `media` and restore the shared session with the embedded
token. -/
def entryRestore (tokenParam mediaParam : Option String) (fetchOk : Bool)
    (freshToken baseHref : String) (s : ShareState) : ShareState :=
  match tokenParam, mediaParam with
  | some token, some media =>
      if token ≠ "" ∧ media ≠ "" then
        match decodeUrl media with
        | some decodedUrl =>
            loadMediaFromUrl (some token) fetchOk freshToken baseHref decodedUrl
              { s with mediaUrl := decodedUrl }
        | none => { s with error := shareBadLinkMsg }
      else s
  | _, _ => s

/-- The mount-time state of the part_000 component. -/
def initShareState : ShareState where
  mediaUrl := ""
  player := none
  error := ""
  success := ""
  isLoading := false
  shareableLink := none
  showShareSection := false
  nextHandle := 0
  revokedHandles := []

/-! ### Concrete sample states used by counterexamples and witnesses -/

/-- An active 120-second session with stored volume 7/10. -/
def p0 : PlayerState where
  url := "https://a.com/a.mp4"
  fileName := "a.mp4"
  isPlaying := true
  currentTime := 10
  duration := 120
  volume := 7/10
  isMuted := false
  isFullscreen := false
  showControls := true
  isProtected := true
  blobUrl := some 0

/-- A mounted video element attached to `p0`'s blob. -/
def v0 : VideoEl where
  src := some 0
  volume := 7/10
  currentTime := 10
  paused := false

def ctx0 : PlaybackCtx := { video := some v0, player := some p0, error := "" }

/-- The context with no mounted element and no session. -/
def ctxEmpty : PlaybackCtx := { video := none, player := none, error := "" }

/-- Domain check enabled with the allow-list `{"a.com"}`. -/
def cfgDomainOn : SecurityConfig :=
  { defaultSecurityConfig with enableDomainCheck := true, allowedDomains := ["a.com"] }

/-! ### Base64 lemmas -/

theorem b64Val_b64CharOf_fin : ∀ n : Fin 64, b64Val (b64CharOf n.val) = n.val := by
  decide

theorem b64Valid_b64CharOf_fin : ∀ n : Fin 64, b64Valid (b64CharOf n.val) = true := by
  decide

theorem b64CharOf_ne_pad_fin : ∀ n : Fin 64, b64CharOf n.val ≠ '=' := by
  decide

theorem b64Val_b64CharOf (n : Nat) (h : n < 64) : b64Val (b64CharOf n) = n :=
  b64Val_b64CharOf_fin ⟨n, h⟩

theorem b64Valid_b64CharOf (n : Nat) (h : n < 64) : b64Valid (b64CharOf n) = true :=
  b64Valid_b64CharOf_fin ⟨n, h⟩

theorem b64CharOf_ne_pad (n : Nat) (h : n < 64) : b64CharOf n ≠ '=' :=
  b64CharOf_ne_pad_fin ⟨n, h⟩

theorem encB64_isEmpty (b : Nat) (l : List Nat) : (encB64 (b :: l)).isEmpty = false := by
  match l with
  | [] => rfl
  | [b1] => rfl
  | b1 :: b2 :: t => rfl

/-- Round trip of the byte-level base64 codec. -/
theorem decB64_encB64 (bs : List Nat) (h : ∀ b ∈ bs, b < 256) :
    decB64 (encB64 bs) = some bs := by
  induction bs using encB64.induct with
  | case1 => rfl
  | case2 b0 =>
      have h0 : b0 < 256 := h b0 (by simp)
      have hv1 := b64Valid_b64CharOf (b0 / 4) (by omega)
      have hv2 := b64Valid_b64CharOf (b0 % 4 * 16) (by omega)
      have hn1 := b64Val_b64CharOf (b0 / 4) (by omega)
      have hn2 := b64Val_b64CharOf (b0 % 4 * 16) (by omega)
      simp [encB64, decB64, decFinal, hv1, hv2, hn1, hn2]
      omega
  | case3 b0 b1 =>
      have h0 : b0 < 256 := h b0 (by simp)
      have h1 : b1 < 256 := h b1 (by simp)
      have hp := b64CharOf_ne_pad (b1 % 16 * 4) (by omega)
      have hv1 := b64Valid_b64CharOf (b0 / 4) (by omega)
      have hv2 := b64Valid_b64CharOf (b0 % 4 * 16 + b1 / 16) (by omega)
      have hv3 := b64Valid_b64CharOf (b1 % 16 * 4) (by omega)
      have hn1 := b64Val_b64CharOf (b0 / 4) (by omega)
      have hn2 := b64Val_b64CharOf (b0 % 4 * 16 + b1 / 16) (by omega)
      have hn3 := b64Val_b64CharOf (b1 % 16 * 4) (by omega)
      simp [encB64, decB64, decFinal, hp, hv1, hv2, hv3, hn1, hn2, hn3]
      omega
  | case4 b0 b1 b2 rest ih =>
      have h0 : b0 < 256 := h b0 (by simp)
      have h1 : b1 < 256 := h b1 (by simp)
      have h2 : b2 < 256 := h b2 (by simp)
      have hp := b64CharOf_ne_pad (b2 % 64) (by omega)
      have hv1 := b64Valid_b64CharOf (b0 / 4) (by omega)
      have hv2 := b64Valid_b64CharOf (b0 % 4 * 16 + b1 / 16) (by omega)
      have hv3 := b64Valid_b64CharOf (b1 % 16 * 4 + b2 / 64) (by omega)
      have hv4 := b64Valid_b64CharOf (b2 % 64) (by omega)
      have hn1 := b64Val_b64CharOf (b0 / 4) (by omega)
      have hn2 := b64Val_b64CharOf (b0 % 4 * 16 + b1 / 16) (by omega)
      have hn3 := b64Val_b64CharOf (b1 % 16 * 4 + b2 / 64) (by omega)
      have hn4 := b64Val_b64CharOf (b2 % 64) (by omega)
      match hr : rest with
      | [] =>
          simp [encB64, decB64, decFinal, hp, hv1, hv2, hv3, hv4,
            hn1, hn2, hn3, hn4]
          omega
      | r :: rs =>
          have hrest : decB64 (encB64 (r :: rs)) = some (r :: rs) :=
            ih (fun b hb => h b (by simp [hb]))
          simp [encB64, decB64, encB64_isEmpty, hrest, hv1, hv2, hv3, hv4,
            hn1, hn2, hn3, hn4]
          omega

/-! ### Early-exit and suspension lemmas for the App.tsx load path -/

theorem loadPhase1_empty (env : LoadEnv) (s : AppState) (h : trimStr s.url = "") :
    loadPhase1 env s = .inl { s with error := emptyUrlMsg } := by
  simp [loadPhase1, h]

theorem loadPhase1_domainDenied (env : LoadEnv) (s : AppState)
    (h1 : trimStr s.url ≠ "")
    (h2 : checkDomainSecurity s.securityConfig env.currentDomain = false) :
    loadPhase1 env s = .inl { s with error := domainDeniedMsg } := by
  simp [loadPhase1, h1, h2]

theorem loadPhase1_invalidLink (env : LoadEnv) (s : AppState)
    (h1 : trimStr s.url ≠ "")
    (h2 : checkDomainSecurity s.securityConfig env.currentDomain = true)
    (h3 : checkReferrerSecurity s.securityConfig env.referrer = true)
    (h4 : isValidDirectLink (dispatchDecode s.url) = false) :
    loadPhase1 env s = .inl { s with error := invalidLinkMsg } := by
  simp [loadPhase1, h1, h2, h3, h4]

theorem loadPhase1_toFetch (env : LoadEnv) (s : AppState)
    (h1 : trimStr s.url ≠ "")
    (h2 : checkDomainSecurity s.securityConfig env.currentDomain = true)
    (h3 : checkReferrerSecurity s.securityConfig env.referrer = true)
    (h4 : isValidDirectLink (dispatchDecode s.url) = true) :
    loadPhase1 env s = .inr ({ s with error := "", isLoading := true }, dispatchDecode s.url) := by
  simp [loadPhase1, h1, h2, h3, h4]

/-! ### C2 — token codec round trip -/

/-- C2: Token codec round trip: for every valid locator string `x` (a string
of 8-bit character codes, which every valid URL string is), `encode` (`btoa`)
is total — it succeeds — and `decode` (`atob`) inverts it:
`decode(encode(x)) = x`. -/
theorem decodeUrl_encodeUrl (s : String) (h : ∀ c ∈ s.data, c.toNat < 256) :
    ∃ t, encodeUrl s = some t ∧ decodeUrl t = some s := by
  refine ⟨String.mk (encB64 (s.data.map Char.toNat)), ?_, ?_⟩
  · unfold encodeUrl
    rw [if_pos (List.all_eq_true.mpr fun c hc => decide_eq_true (h c hc))]
  · unfold decodeUrl
    have hb : ∀ b ∈ s.data.map Char.toNat, b < 256 := by
      intro b hbm
      obtain ⟨c, hc, rfl⟩ := List.mem_map.mp hbm
      exact h c hc
    show (decB64 (encB64 (s.data.map Char.toNat))).map
      (fun bs => String.mk (bs.map Char.ofNat)) = some s
    rw [decB64_encB64 _ hb]
    simp only [Option.map_some', Option.some.injEq]
    rw [List.map_map]
    have hid : s.data.map (Char.ofNat ∘ Char.toNat) = s.data := by
      simp [Function.comp_def, Char.ofNat_toNat]
    rw [hid]

/-- Witness for `decodeUrl_encodeUrl` at the locator of the spec's end-to-end
example. -/
theorem decodeUrl_encodeUrl_w :
    ∃ t, encodeUrl "https://host/video.mp4" = some t ∧
      decodeUrl t = some "https://host/video.mp4" :=
  decodeUrl_encodeUrl "https://host/video.mp4" (by decide)

/-! ### C10 — token-vs-URL dispatch -/

/-- C10: the loader attempts base64 decoding only when the input does not
contain the substring "http"; every input containing "http" anywhere is used
verbatim as the locator and is never decoded. -/
theorem dispatch_http_verbatim (url : String) :
    (strHasSubstr url "http" = true → dispatchDecode url = url) ∧
    (strHasSubstr url "http" = false →
      dispatchDecode url = (decodeUrl url).getD url) := by
  constructor
  · intro h
    simp [dispatchDecode, h]
  · intro h
    simp only [dispatchDecode, h, Bool.false_eq_true, if_false]
    cases decodeUrl url <;> rfl

/-- Witness for `dispatch_http_verbatim`: "xhttp.mp4" contains "http" and is
used verbatim; "YS5tcDQ=" (the encoding of "a.mp4") contains no "http" and is
decoded. -/
theorem dispatch_http_verbatim_w :
    dispatchDecode "xhttp.mp4" = "xhttp.mp4" ∧ dispatchDecode "YS5tcDQ=" = "a.mp4" := by
  constructor
  · exact (dispatch_http_verbatim "xhttp.mp4").1 (by decide)
  · rw [(dispatch_http_verbatim "YS5tcDQ=").2 (by decide)]
    decide

/-! ### C7 — access-gate domain check -/

/-- C7: when `enableDomainCheck` is false the domain check passes for every
host; when true it passes iff the current origin's host is in
`allowedDomains`, and a denied host surfaces the domain-denied message
(`DomainNotAllowed`) from the load path before any fetch. -/
theorem domain_check_correct (cfg : SecurityConfig) (host : String) :
    (cfg.enableDomainCheck = false → checkDomainSecurity cfg host = true) ∧
    (cfg.enableDomainCheck = true →
      (checkDomainSecurity cfg host = true ↔ host ∈ cfg.allowedDomains)) ∧
    (∀ env s, trimStr s.url ≠ "" →
      checkDomainSecurity s.securityConfig env.currentDomain = false →
      loadPhase1 env s = .inl { s with error := domainDeniedMsg }) := by
  refine ⟨?_, ?_, ?_⟩
  · intro h
    simp [checkDomainSecurity, h]
  · intro h
    simp [checkDomainSecurity, h, List.contains, List.elem_eq_mem]
  · intro env s h1 h2
    exact loadPhase1_domainDenied env s h1 h2

/-- Witness for `domain_check_correct`: with the check disabled "b.com"
passes; with it enabled and the allow-list `{"a.com"}`, "b.com" is not
allowed, and the load path surfaces the domain-denied message. -/
theorem domain_check_correct_w :
    checkDomainSecurity defaultSecurityConfig "b.com" = true ∧
    ¬ checkDomainSecurity cfgDomainOn "b.com" = true ∧
    loadPhase1 env0 { mkInit "https://a.com/a.mp4" with securityConfig := cfgDomainOn } =
      .inl { mkInit "https://a.com/a.mp4" with
              securityConfig := cfgDomainOn
              error := domainDeniedMsg } := by
  refine ⟨(domain_check_correct defaultSecurityConfig "b.com").1 rfl, ?_, ?_⟩
  · intro hc
    have := ((domain_check_correct cfgDomainOn "b.com").2.1 rfl).mp hc
    simp [cfgDomainOn, defaultSecurityConfig] at this
  · exact (domain_check_correct cfgDomainOn "localhost").2.2 env0 _ (by decide) (by decide)

/-! ### Field-tracking lemmas for the load path -/

theorem loadPhase1_inl_fields (env : LoadEnv) (s : AppState) (s1 : AppState)
    (h : loadPhase1 env s = .inl s1) :
    s1.revokedHandles = s.revokedHandles ∧ s1.player = s.player ∧
      s1.nextHandle = s.nextHandle := by
  simp only [loadPhase1] at h
  repeat' split at h
  all_goals try (injection h with h1; subst h1; exact ⟨rfl, rfl, rfl⟩)
  all_goals simp at h

theorem loadPhase1_inr_fields (env : LoadEnv) (s : AppState) (s1 : AppState) (u : String)
    (h : loadPhase1 env s = .inr (s1, u)) :
    s1 = { s with error := "", isLoading := true } ∧ u = dispatchDecode s.url := by
  simp only [loadPhase1] at h
  repeat' split at h
  all_goals try (injection h with h1; injection h1 with h2 h3; exact ⟨h2.symm, h3.symm⟩)
  all_goals simp at h

theorem loadPhase2_revoked (f : Bool) (u : String) (s : AppState) :
    (loadPhase2 f u s).revokedHandles = s.revokedHandles := by
  unfold loadPhase2
  split <;> rfl

theorem handleLoadMedia_revoked (env : LoadEnv) (f : Bool) (s : AppState) :
    (handleLoadMedia env f s).revokedHandles = s.revokedHandles := by
  unfold handleLoadMedia
  rcases hp : loadPhase1 env s with s1 | ⟨s1, u⟩
  · exact (loadPhase1_inl_fields env s s1 hp).1
  · obtain ⟨h1, -⟩ := loadPhase1_inr_fields env s s1 u hp
    rw [loadPhase2_revoked, h1]

theorem runLoads_revoked (env : LoadEnv) (runs : List (Bool × String)) (s : AppState) :
    (runLoads env runs s).revokedHandles = s.revokedHandles := by
  induction runs generalizing s with
  | nil => rfl
  | cons r rest ih =>
      obtain ⟨f, u⟩ := r
      show (runLoads env rest (handleLoadMedia env f { s with url := u })).revokedHandles = _
      rw [ih, handleLoadMedia_revoked]

/-! ### C1 — supersession and handle revocation -/

/-- C1 counterexample: two sequential successful loads from the initial
state.  The claim requires the first session's handle (id 0) to have been
revoked exactly once when the second load superseded it; in the code no
revocation happens at all — `handleLoadMedia` simply overwrites the player
state — so after the two loads both handles have been created (`nextHandle =
2`), the revocation log is empty (handle 0 was revoked zero times, not once),
and the live session holds handle 1. -/
theorem single_live_handle_cx :
    (runLoads env0 [(true, "https://a.com/a.mp4"), (true, "https://a.com/b.mp4")]
        (mkInit "")).nextHandle = 2 ∧
    (runLoads env0 [(true, "https://a.com/a.mp4"), (true, "https://a.com/b.mp4")]
        (mkInit "")).revokedHandles = [] ∧
    ((runLoads env0 [(true, "https://a.com/a.mp4"), (true, "https://a.com/b.mp4")]
        (mkInit "")).player.map fun p => p.blobUrl) = some (some 1) := by
  refine ⟨by decide, by decide, by decide⟩

/-- C1 amended: no load ever revokes a handle — starting a new load while a
session is active does not release the old session's blob URL; the old handle
is dropped unreleased.  Revocation happens only at context teardown
(`beforeunload`), which revokes exactly the then-current session's handle,
once.  So after any sequence of loads the revocation log is unchanged, and
teardown appends exactly the final session's handle. -/
theorem loads_never_revoke (env : LoadEnv) (runs : List (Bool × String)) (s : AppState) :
    (runLoads env runs s).revokedHandles = s.revokedHandles ∧
    (∀ h : Nat, ((runLoads env runs s).player.map fun p => p.blobUrl) = some (some h) →
      (handleBeforeUnload (runLoads env runs s)).revokedHandles =
        s.revokedHandles ++ [h]) := by
  refine ⟨runLoads_revoked env runs s, ?_⟩
  intro h hp
  obtain ⟨p, hps, hpb⟩ := Option.map_eq_some'.mp hp
  simp only [handleBeforeUnload, hps, hpb, runLoads_revoked]

/-- Witness for `loads_never_revoke` at two concrete successful loads:
no handle is revoked by the loads, and teardown revokes exactly the second
session's handle. -/
theorem loads_never_revoke_w :
    (runLoads env0 [(true, "https://a.com/a.mp4"), (true, "https://a.com/b.mp4")]
        (mkInit "x")).revokedHandles = [] ∧
    (handleBeforeUnload (runLoads env0
        [(true, "https://a.com/a.mp4"), (true, "https://a.com/b.mp4")]
        (mkInit "x"))).revokedHandles = [] ++ [1] := by
  have h := loads_never_revoke env0
    [(true, "https://a.com/a.mp4"), (true, "https://a.com/b.mp4")] (mkInit "x")
  exact ⟨h.1, h.2 1 (by decide)⟩

/-! ### C5 — no in-flight-load rejection -/

/-- C5 counterexample: with a previous load suspended at its fetch
(`isLoading = true`), a second `handleLoadMedia` invocation is not rejected:
`loadPhase1` reaches the suspension point (`.isRight`), and the full second
run replaces the player and reports no error whatsoever — there is no
`LoadInProgress` rejection anywhere in the code. -/
theorem load_in_progress_cx :
    (loadPhase1 env0 { mkInit "https://b.com/b.mp4" with isLoading := true }).isRight
        = true ∧
    (handleLoadMedia env0 true
        { mkInit "https://b.com/b.mp4" with isLoading := true }).error = "" ∧
    (handleLoadMedia env0 true
        { mkInit "https://b.com/b.mp4" with isLoading := true }).player.isSome = true := by
  refine ⟨by decide, by decide, by decide⟩

/-- C5 amended: `handleLoadMedia` performs no in-flight-load check — a load
request issued while a previous load is `Loading` (`isLoading = true`) is
neither rejected nor queued: whenever the input passes the emptiness, gate and
locator checks, the second invocation proceeds to its own fetch suspension
point exactly as a first one would.  (The only concurrency guard in the
program is the UI disabling the load button while `isLoading`, which the
Enter-key path does not consult.) -/
theorem load_ignores_inflight (env : LoadEnv) (s : AppState)
    (_hin : s.isLoading = true)
    (h1 : trimStr s.url ≠ "")
    (h2 : checkDomainSecurity s.securityConfig env.currentDomain = true)
    (h3 : checkReferrerSecurity s.securityConfig env.referrer = true)
    (h4 : isValidDirectLink (dispatchDecode s.url) = true) :
    loadPhase1 env s =
      .inr ({ s with error := "", isLoading := true }, dispatchDecode s.url) :=
  loadPhase1_toFetch env s h1 h2 h3 h4

/-- Witness for `load_ignores_inflight`: the second request for
"https://a.com/a.mp4", issued mid-load, reaches its fetch suspension point. -/
theorem load_ignores_inflight_w :
    loadPhase1 env0 { mkInit "https://a.com/a.mp4" with isLoading := true } =
      .inr ({ mkInit "https://a.com/a.mp4" with isLoading := true },
        "https://a.com/a.mp4") := by
  rw [load_ignores_inflight env0 { mkInit "https://a.com/a.mp4" with isLoading := true }
    rfl (by decide) (by decide) (by decide) (by decide)]
  decide

/-! ### C8 — locator validity pre-check -/

/-- C8 counterexample: the App.tsx pre-check accepts "video.mp4", which has no
transport scheme and matches no hosting-service shape, and the load proceeds
to the fetch (the claim requires rejection with no fetch); "mkv" from the
claim's 13-extension supported set is rejected by App.tsx and "wav" by
part_000; and part_000 accepts a URL whose path ends in no supported
extension at all, because it tests substring containment rather than the path
end. -/
theorem locator_precheck_cx :
    isValidDirectLink "video.mp4" = true ∧
    (loadPhase1 env0 (mkInit "video.mp4")).isRight = true ∧
    isValidDirectLink "https://a.com/v.mkv" = false ∧
    isValidMediaUrl "https://a.com/v.wav" = false ∧
    isValidMediaUrl "https://a.com/.mp4dir/file" = true := by
  refine ⟨by decide, by decide, by decide, by decide, by decide⟩

/-- C8 amended: the pre-check does run before any network call, but its
accept condition is the code's own, not the spec's: App.tsx accepts exactly
the locators whose lowercased text ends in one of
{.mp3,.mp4,.wav,.ogg,.webm,.flac,.m4a,.avi,.mov} — with no scheme or
hosting-shape requirement — and rejects the rest with the invalid-link
message before the fetch; part_000 accepts exactly the locators containing
one of {.mp4,.mp3,.webm,.avi,.mov,.mkv,.flv,.wmv,.m4v} case-insensitively as
a substring and (mentioning mediafire.com or drive.google.com or starting
with http), rejecting the rest before its fetch, with a result independent of
the transport oracle. -/
theorem locator_precheck_behavior (env : LoadEnv) (s : AppState)
    (h1 : trimStr s.url ≠ "")
    (h2 : checkDomainSecurity s.securityConfig env.currentDomain = true)
    (h3 : checkReferrerSecurity s.securityConfig env.referrer = true) :
    (isValidDirectLink (dispatchDecode s.url) = false →
      loadPhase1 env s = .inl { s with error := invalidLinkMsg }) ∧
    (isValidDirectLink (dispatchDecode s.url) = true →
      loadPhase1 env s = .inr ({ s with error := "", isLoading := true },
        dispatchDecode s.url)) ∧
    (∀ (tok : Option String) (fetchOk : Bool) (fresh base u : String) (st : ShareState),
      isValidMediaUrl u = false → trimStr u ≠ "" →
      loadMediaFromUrl tok fetchOk fresh base u st =
        { st with
            error := shareInvalidUrlMsg
            success := "" }) := by
  refine ⟨?_, ?_, ?_⟩
  · intro h4
    exact loadPhase1_invalidLink env s h1 h2 h3 h4
  · intro h4
    exact loadPhase1_toFetch env s h1 h2 h3 h4
  · intro tok fetchOk fresh base u st hval hne
    simp [loadMediaFromUrl, hval, hne]

/-- Witness for `locator_precheck_behavior`: "nope.txt" fails the App.tsx
pre-check and exits with the invalid-link message before any fetch, and
"https://a.com/sound.wav" fails the part_000 pre-check with its message. -/
theorem locator_precheck_behavior_w :
    loadPhase1 env0 (mkInit "nope.txt") =
      .inl { mkInit "nope.txt" with error := invalidLinkMsg } ∧
    loadMediaFromUrl none true "t" "b" "https://a.com/sound.wav" initShareState =
      { initShareState with
          error := shareInvalidUrlMsg
          success := "" } := by
  constructor
  · exact (locator_precheck_behavior env0 (mkInit "nope.txt")
      (by decide) (by decide) (by decide)).1 (by decide)
  · exact (locator_precheck_behavior env0 (mkInit "nope.txt")
      (by decide) (by decide) (by decide)).2.2 none true "t" "b"
      "https://a.com/sound.wav" initShareState (by decide) (by decide)

/-! ### C6 — playback controls with no active session -/

/-- C6 counterexample: with no mounted element and no session, every
playback-control handler returns the context completely unchanged — the error
state stays empty; nothing fails.  The guard
`if (!videoRef.current || !player) return` is a silent no-op, and
`toggleFullscreen` does not consult the session at all. -/
theorem controls_silent_noop_cx :
    togglePlayPause ctxEmpty = ctxEmpty ∧
    toggleMute ctxEmpty = ctxEmpty ∧
    handleVolumeChange (1/2) ctxEmpty = ctxEmpty ∧
    handleSeek 5 0 10 ctxEmpty = ctxEmpty ∧
    toggleFullscreen true false ctxEmpty = ctxEmpty ∧
    ctxEmpty.error = "" :=
  ⟨rfl, rfl, rfl, rfl, rfl, rfl⟩

/-- C6 amended: every playback-control operation invoked when no session is
active silently leaves the context — including the error state — unchanged;
no failure of any kind is reported (`NoActiveSession` does not exist in the
code).  `togglePlay`, `seek`, `setVolume` and `toggleMute` guard on the video
ref and the player; `toggleFullscreen` guards only on the container ref and
maps over the absent player. -/
theorem controls_noop_without_session (c : PlaybackCtx) (hc : c.player = none) :
    togglePlayPause c = c ∧ toggleMute c = c ∧
    (∀ v : ℚ, handleVolumeChange v c = c) ∧
    (∀ x l w : ℚ, handleSeek x l w c = c) ∧
    (∀ r f : Bool, toggleFullscreen r f c = c) := by
  obtain ⟨cv, cp, ce⟩ := c
  change cp = none at hc
  subst hc
  refine ⟨?_, ?_, fun v => ?_, fun x l w => ?_, fun r f => ?_⟩
  · cases cv <;> rfl
  · cases cv <;> rfl
  · cases cv <;> rfl
  · cases cv <;> rfl
  · cases r <;> cases f <;> rfl

/-- Witness for `controls_noop_without_session` at the empty context with
concrete control arguments. -/
theorem controls_noop_without_session_w :
    togglePlayPause ctxEmpty = ctxEmpty ∧ toggleMute ctxEmpty = ctxEmpty ∧
    handleVolumeChange (3/4) ctxEmpty = ctxEmpty ∧
    handleSeek 7 0 100 ctxEmpty = ctxEmpty ∧
    toggleFullscreen true true ctxEmpty = ctxEmpty := by
  have h := controls_noop_without_session ctxEmpty rfl
  exact ⟨h.1, h.2.1, h.2.2.1 (3/4), h.2.2.2.1 7 0 100, h.2.2.2.2 true true⟩

/-! ### C3 — volume handling -/

/-- C3 counterexample: `setVolume(1.5)` does not fail — no error is reported
(no `InvalidVolume` exists in the code) and 3/2 is stored as the volume; and
`setVolume(0)` does set `isMuted = true` but also overwrites the stored volume
(7/10 in `ctx0`) with 0, so the subsequent `toggleMute` unmutes to volume 0
instead of restoring 7/10. -/
theorem volume_claim_cx :
    (handleVolumeChange (3/2) ctx0).error = "" ∧
    ((handleVolumeChange (3/2) ctx0).player.map fun p => p.volume) = some (3/2) ∧
    ((handleVolumeChange 0 ctx0).player.map fun p => p.isMuted) = some true ∧
    ((toggleMute (handleVolumeChange 0 ctx0)).player.map fun p => (p.volume, p.isMuted))
      = some (0, false) ∧
    ((toggleMute (handleVolumeChange 0 ctx0)).video.map fun v => v.volume) = some 0 := by
  refine ⟨rfl, rfl, ?_, ?_, ?_⟩ <;>
    norm_num [toggleMute, handleVolumeChange, ctx0, p0, v0]

/-- C3 amended: `handleVolumeChange` performs no range validation — every
value, also outside [0,1], is accepted and stored without any failure
(`InvalidVolume` does not exist; only the UI slider's min/max constrain the
value).  `setVolume(0)` sets `isMuted = true` but also overwrites the stored
volume with 0, so a subsequent `toggleMute` unmutes with volume 0 rather than
restoring the last non-zero volume. -/
theorem volume_behavior (c : PlaybackCtx) (v : VideoEl) (p : PlayerState) (vol : ℚ)
    (hv : c.video = some v) (hp : c.player = some p) :
    (handleVolumeChange vol c).error = c.error ∧
    (handleVolumeChange vol c).player =
      some { p with
              volume := vol
              isMuted := if vol = 0 then true else false
              showControls := true } ∧
    (toggleMute (handleVolumeChange 0 c)).player =
      some { p with
              volume := 0
              isMuted := false
              showControls := true } ∧
    (toggleMute (handleVolumeChange 0 c)).video = some { v with volume := 0 } := by
  obtain ⟨cv, cp, ce⟩ := c
  change cv = some v at hv
  change cp = some p at hp
  subst hv
  subst hp
  refine ⟨rfl, rfl, ?_, ?_⟩ <;> simp [handleVolumeChange, toggleMute]

/-- Witness for `volume_behavior` at `ctx0` and the out-of-range volume 3/2. -/
theorem volume_behavior_w :
    (handleVolumeChange (3/2) ctx0).error = "" ∧
    (handleVolumeChange (3/2) ctx0).player =
      some { p0 with
              volume := 3/2
              isMuted := if (3/2 : ℚ) = 0 then true else false
              showControls := true } ∧
    (toggleMute (handleVolumeChange 0 ctx0)).player =
      some { p0 with
              volume := 0
              isMuted := false
              showControls := true } ∧
    (toggleMute (handleVolumeChange 0 ctx0)).video = some { v0 with volume := 0 } :=
  volume_behavior ctx0 v0 p0 (3/2) rfl rfl

/-! ### C4 — seek handling -/

/-- C4 counterexample: on the active 120-second session `ctx0`, a seek whose
click maps to time −5 (clientX = −5 on a width-120 bar starting at 0) stores
position −5, not the claimed clamp to 0; a seek mapping to 500 stores 500,
not 120.  No clamping exists in `handleSeek`. -/
theorem seek_claim_cx :
    ((handleSeek (-5) 0 120 ctx0).player.map fun p => p.currentTime) = some (-5) ∧
    ((handleSeek 500 0 120 ctx0).player.map fun p => p.currentTime) = some 500 := by
  constructor <;> norm_num [handleSeek, ctx0, p0, v0]

/-- C4 amended: `seek` stores exactly
`(clientX − rect.left) / rect.width * duration`, with no clamping — values
below 0 or above the duration are stored as-is — and reports no error; when
the duration is 0 the computed position is 0 (the assignment still happens;
the handler is not a guarded no-op). -/
theorem seek_formula (c : PlaybackCtx) (v : VideoEl) (p : PlayerState)
    (clientX rectLeft rectWidth : ℚ)
    (hv : c.video = some v) (hp : c.player = some p) :
    (handleSeek clientX rectLeft rectWidth c).error = c.error ∧
    (handleSeek clientX rectLeft rectWidth c).player =
      some { p with
              currentTime := (clientX - rectLeft) / rectWidth * p.duration
              showControls := true } ∧
    (p.duration = 0 →
      (handleSeek clientX rectLeft rectWidth c).player =
        some { p with
                currentTime := 0
                showControls := true }) := by
  obtain ⟨cv, cp, ce⟩ := c
  change cv = some v at hv
  change cp = some p at hp
  subst hv
  subst hp
  refine ⟨rfl, rfl, fun hd => ?_⟩
  simp [handleSeek, hd]

/-- Witness for `seek_formula` at `ctx0` with a click at clientX = 30 on a
width-120 bar starting at 0. -/
theorem seek_formula_w :
    (handleSeek 30 0 120 ctx0).player =
      some { p0 with
              currentTime := (30 - 0) / 120 * 120
              showControls := true } :=
  (seek_formula ctx0 v0 p0 30 0 120 rfl rfl).2.1

/-! ### C9 — share-link generation and restoration -/

theorem loadMediaFromUrl_ok (tok : Option String) (fresh base u : String)
    (st : ShareState) (hval : isValidMediaUrl u = true) (hne : trimStr u ≠ "") :
    loadMediaFromUrl tok true fresh base u st =
      { st with
          error := ""
          success := shareSuccessMsg
          player := some {
            url := u
            fileName := extractFileNameShare u
            isPlaying := false
            currentTime := 0
            duration := 0
            volume := 1
            isMuted := false
            isFullscreen := false
            showControls := true
            blobUrl := some st.nextHandle }
          nextHandle := st.nextHandle + 1
          shareableLink := some {
            token := match tok with
                     | some t => if t = "" then fresh else t
                     | none => fresh
            mediaParam := encodeUrl u
            base := base }
          showShareSection := true
          isLoading := false } := by
  simp [loadMediaFromUrl, hval, hne]

/-- C9: entering with both `token` and `media` query parameters (where `media`
decodes to a locator that passes the pre-check and whose fetch succeeds)
restores a session whose source locator is the decoded `media` value and
whose share token is the embedded token — no new token is minted; and any
fresh load writes `media := btoa(url)` into the share link, so loading a URL
yields a link whose `media` parameter is exactly the encoding of that URL. -/
theorem share_link_restore (token media u freshToken baseHref : String)
    (s : ShareState)
    (htok : token ≠ "")
    (hdec : decodeUrl media = some u)
    (hval : isValidMediaUrl u = true)
    (hne : trimStr u ≠ "") :
    (∃ p, (entryRestore (some token) (some media) true freshToken baseHref s).player
        = some p ∧ p.url = u) ∧
    (∃ l, (entryRestore (some token) (some media) true freshToken baseHref s).shareableLink
        = some l ∧ l.token = token ∧ l.mediaParam = encodeUrl u) ∧
    (∀ (fresh2 base2 : String) (s2 : ShareState),
      ∃ l2, (loadMediaFromUrl none true fresh2 base2 u s2).shareableLink = some l2 ∧
        l2.token = fresh2 ∧ l2.mediaParam = encodeUrl u) := by
  have hmedia : media ≠ "" := by
    intro hm
    subst hm
    have hdec' : some "" = some u := hdec
    injection hdec' with hu
    subst hu
    exact hne rfl
  have hall : entryRestore (some token) (some media) true freshToken baseHref s =
      loadMediaFromUrl (some token) true freshToken baseHref u
        { s with mediaUrl := u } := by
    simp only [entryRestore]
    rw [if_pos ⟨htok, hmedia⟩, hdec]
  have hstep := loadMediaFromUrl_ok (some token) freshToken baseHref u
    { s with mediaUrl := u } hval hne
  refine ⟨?_, ?_, ?_⟩
  · rw [hall, hstep]
    exact ⟨_, rfl, rfl⟩
  · rw [hall, hstep]
    refine ⟨_, rfl, ?_, rfl⟩
    show (if token = "" then freshToken else token) = token
    rw [if_neg htok]
  · intro fresh2 base2 s2
    rw [loadMediaFromUrl_ok none fresh2 base2 u s2 hval hne]
    exact ⟨_, rfl, rfl, rfl⟩

/-- Witness for `share_link_restore` at the spec's end-to-end locator: an
entry URL with token "t1" and `media` equal to the encoding of
"https://host/video.mp4" restores that exact locator with token "t1", and the
restored share link's `media` parameter is again that encoding. -/
theorem share_link_restore_w :
    (∃ p, (entryRestore (some "t1") (some "aHR0cHM6Ly9ob3N0L3ZpZGVvLm1wNA==") true
        "fresh" "https://app/" initShareState).player = some p ∧
        p.url = "https://host/video.mp4") ∧
    (∃ l, (entryRestore (some "t1") (some "aHR0cHM6Ly9ob3N0L3ZpZGVvLm1wNA==") true
        "fresh" "https://app/" initShareState).shareableLink = some l ∧
        l.token = "t1" ∧ l.mediaParam = encodeUrl "https://host/video.mp4") := by
  have h := share_link_restore "t1" "aHR0cHM6Ly9ob3N0L3ZpZGVvLm1wNA=="
    "https://host/video.mp4" "fresh" "https://app/" initShareState
    (by decide) (by decide) (by decide) (by decide)
  exact ⟨h.1, h.2.1⟩

end Player
